import Mathlib

/-!
Shallow embedding of the pipeline-execution core of the ion shell
(`src/shell/pipe_exec/mod.rs`).  Pure data (job kinds, refined jobs,
the classifier) is translated directly; the effectful driver (`pipe`,
`execute`, `wait`, `builtin`) is embedded as explicit state passing over
an oracle state `St` that carries the pending results of every OS call
the code makes (spawn, fork, pipe2, dup, try_clone, watch_foreground,
builtin return codes) together with a ghost trace of observable events
(launch attempts, diagnostics, fd operations, SIGTERM broadcast).
Early `return` out of `pipe` and Rust panics are modelled by an
`Except Abort` layer.
-/

namespace IonPipeExec

/-- Modelled from the spec: the shell-wide exit-status constants come from
`super::status`, which is not under `src/`.  The spec fixes `SUCCESS = 0`;
`FAILURE`, `TERMINATED` and `NO_SUCH_COMMAND` are sentinels whose exact
values the development never relies on beyond their pairwise distinctness
(143 and 127 are the conventional POSIX values). -/
def SUCCESS : Int := 0

/-- Modelled from the spec: see `SUCCESS`. -/
def FAILURE : Int := 1

/-- Modelled from the spec: see `SUCCESS`. -/
def TERMINATED : Int := 143

/-- Modelled from the spec: see `SUCCESS`. -/
def NO_SUCH_COMMAND : Int := 127

/-- `parser::peg::RedirectFrom`: which stream(s) of the writer feed a pipe
or file redirection. -/
inductive RedirectFrom where
  | Stdout
  | Stderr
  | Both
  deriving DecidableEq, Repr

/-- `JobKind`: the operator edge leaving a job. -/
inductive JobKind where
  | Pipe (mode : RedirectFrom)
  | And
  | Or
  | Background
  | Last
  deriving DecidableEq, Repr

/-- `RefinedJob` (from `shell/job.rs`, used by the core): either an external
command or an in-process builtin, carrying optionally attached stdio file
descriptors.  File descriptors are plain naturals; an attached `File` value
is `some fd`. -/
inductive RefinedJob where
  | External (command : String) (args : List String)
      (stdinFd stdoutFd stderrFd : Option Nat)
  | Builtin (name : String) (args : List String)
      (stdinFd stdoutFd stderrFd : Option Nat)
  deriving DecidableEq, Repr

namespace RefinedJob

/-- `RefinedJob::stdin`: attach a file to the job's stdin. -/
def setStdin : RefinedJob → Nat → RefinedJob
  | External c a _ o e, fd => External c a (some fd) o e
  | Builtin n a _ o e, fd => Builtin n a (some fd) o e

/-- `RefinedJob::stdout`: attach a file to the job's stdout. -/
def setStdout : RefinedJob → Nat → RefinedJob
  | External c a i _ e, fd => External c a i (some fd) e
  | Builtin n a i _ e, fd => Builtin n a i (some fd) e

/-- `RefinedJob::stderr`: attach a file to the job's stderr. -/
def setStderr : RefinedJob → Nat → RefinedJob
  | External c a i o _, fd => External c a i o (some fd)
  | Builtin n a i o _, fd => Builtin n a i o (some fd)

/-- Modelled from the spec: `RefinedJob::short` lives in `shell/job.rs`
(not under `src/`); per the spec it is the short label (the command name). -/
def short : RefinedJob → String
  | External c _ _ _ _ => c
  | Builtin n _ _ _ _ => n

/-- Modelled from the spec: `RefinedJob::long` lives in `shell/job.rs`
(not under `src/`); per the spec it is the long label (the full command
line).  A builtin's `args` vector already contains the command word at
index 0 (see the classifier), an external's does not. -/
def long : RefinedJob → String
  | External c a _ _ _ => String.intercalate " " (c :: a)
  | Builtin _ a _ _ _ => String.intercalate " " a

end RefinedJob

/-- A parsed job as delivered by the parser: command word, argv
(`args[0]` equals `command` by parser invariant) and the edge kind. -/
structure ParsedJob where
  command : String
  args : List String
  kind : JobKind
  deriving DecidableEq, Repr

/-- `is_implicit_cd` (mod.rs:68-71): `argument` starts with `.` or `/`, or
ends with `/`.  Starts-with / ends-with are expressed on the character
list (extensionally `String.startsWith` / `String.endsWith`, which do not
reduce inside the kernel). -/
def is_implicit_cd (argument : String) : Bool :=
  List.isPrefixOf ".".data argument.data ||
  List.isPrefixOf "/".data argument.data ||
  List.isSuffixOf "/".data argument.data

/-- The classification closure inside `execute_pipeline` (mod.rs:85-100):
implicit-cd rule first, then the builtin registry, else external.  The
builtin registry is abstracted to its name set (`contains_key`). -/
def classify (builtins : List String) (job : ParsedJob) : RefinedJob × JobKind :=
  let refined :=
    if is_implicit_cd (job.args.headD "") then
      RefinedJob.Builtin "cd" ("cd" :: job.args) none none none
    else if builtins.contains job.command then
      RefinedJob.Builtin job.command job.args none none none
    else
      RefinedJob.External job.command (job.args.drop 1) none none none
  (refined, job.kind)

/-- `parser::peg::Input`: the pipeline-level stdin source. -/
inductive Input where
  | file (path : String)
  | hereString (s : String)
  deriving DecidableEq, Repr

/-- `stdin_of` (mod.rs:37-47): create a pipe, write the whole buffer to the
writer end, close it, return the reader end.  The kernel effects are the
two fallible steps `pipe2` and `write_all`/`flush`, supplied as oracle
results; on success the reader fd is returned together with the exact
byte content a reader of that fd will observe (the function's contract). -/
def stdin_of (input : String) (pipeRes : Except String (Nat × Nat))
    (writeRes : Except String Unit) : Except String (Nat × String) :=
  match pipeRes with
  | .error e => .error e
  | .ok (reader, _) =>
      match writeRes with
      | .error e => .error e
      | .ok _ => .ok (reader, input)

/-- The here-string mutation in `execute_pipeline` (mod.rs:112-114):
push a trailing newline when absent (`string.ends_with('\n')`, expressed
on the character list). -/
def hereStringNormalized (s : String) : String :=
  if List.isSuffixOf "\n".data s.data then s else s.push '\n'

/-- The here-string arm of the stdin binder in `execute_pipeline`
(mod.rs:111-123): normalize the string, materialize it with `stdin_of`,
and attach the reader to the first job's stdin; on failure print a
diagnostic and leave the job list unchanged.  Returns the updated job
list, the diagnostics printed, and the fd/content attached (if any). -/
def applyHereString (s : String) (pipeRes : Except String (Nat × Nat))
    (writeRes : Except String Unit) (cmds : List (RefinedJob × JobKind)) :
    List (RefinedJob × JobKind) × List String × Option (Nat × String) :=
  match cmds with
  | [] => (cmds, [], none)
  | first :: rest =>
      let s' := hereStringNormalized s
      match stdin_of s' pipeRes writeRes with
      | .ok (reader, content) =>
          ((first.1.setStdin reader, first.2) :: rest, [], some (reader, content))
      | .error e =>
          (cmds, ["ion: failed to redirect herestring '" ++ s' ++ "' into stdin: " ++ e], none)

/-- The error carried by a failed `Command::spawn`: its `ErrorKind`
matters (NotFound versus anything else) plus a display string. -/
inductive SpawnErrKind where
  | notFound
  | otherErr
  deriving DecidableEq, Repr

/-- See `SpawnErrKind`. -/
structure SpawnErr where
  kind : SpawnErrKind
  msg : String
  deriving DecidableEq, Repr

/-- Ghost trace of the observable actions of the driver: launch attempts
(`spawn_proc!` entry and `execute` entry), stderr diagnostics, fd
close/dup2 calls, delegation to `watch_foreground`, the SIGTERM broadcast,
and invocation of a registered builtin. -/
inductive Event where
  | launch (job : RefinedJob)
  | err (msg : String)
  | closeFd (fd : Nat)
  | redirFd (old new : Nat)
  | builtinRun (name : String) (args : List String)
  | watchForeground (pgid lastPid : Nat) (label : String)
  | sigterm
  deriving DecidableEq, Repr

/-- Non-local exits of the embedded code: `ret s` is a Rust `return s`
out of `pipe` (used by `spawn_proc!` on spawn failure and by the
TERMINATED check), `panicked` is a Rust panic. -/
inductive Abort where
  | ret (code : Int)
  | panicked (msg : String)
  deriving DecidableEq, Repr

/-- The observable outcome of a whole `pipe` call. -/
inductive Outcome where
  | status (code : Int)
  | panicked (msg : String)
  deriving DecidableEq, Repr

instance {ε α : Type} [DecidableEq ε] [DecidableEq α] : DecidableEq (Except ε α)
  | .ok a, .ok b =>
      if h : a = b then .isTrue (by subst h; rfl)
      else .isFalse (by intro hc; injection hc; contradiction)
  | .error a, .error b =>
      if h : a = b then .isTrue (by subst h; rfl)
      else .isFalse (by intro hc; injection hc; contradiction)
  | .ok _, .error _ => .isFalse (by intro hc; exact Except.noConfusion hc)
  | .error _, .ok _ => .isFalse (by intro hc; exact Except.noConfusion hc)

/-- Oracle state: the builtin registry's name set, one pending-result
stream per OS call the core performs, and the ghost event trace.  Each
stream is consumed front-first; an exhausted stream yields a fixed
successful default. -/
structure St where
  builtinsReg : List String
  spawns : List (Except SpawnErr Nat)
  forks : List (Except String Nat)
  pipes : List (Except String (Nat × Nat))
  clones : List (Except String Nat)
  dups : List (Except String Nat)
  watches : List Int
  builtinRets : List Int
  trace : List Event
  deriving DecidableEq, Repr

/-- State-and-abort monad for the embedded code. -/
def M (α : Type) : Type := St → Except Abort α × St

/-- Monad operations for `M`. -/
def pureM {α : Type} (a : α) : M α := fun st => (.ok a, st)

/-- See `pureM`. -/
def bindM {α β : Type} (m : M α) (k : α → M β) : M β := fun st =>
  match m st with
  | (.ok a, st') => k a st'
  | (.error e, st') => (.error e, st')

instance : Monad M where
  pure := pureM
  bind := bindM

/-- Non-local exit (`return` from `pipe`, or a panic). -/
def throwM {α : Type} (e : Abort) : M α := fun st => (.error e, st)

/-- Append one event to the ghost trace. -/
def recordEv (e : Event) : M Unit := fun st =>
  (.ok (), { st with trace := st.trace ++ [e] })

/-- Consume the next `Command::spawn` result. -/
def popSpawn : M (Except SpawnErr Nat) := fun st =>
  match st.spawns with
  | [] => (.ok (.ok 0), st)
  | r :: rest => (.ok r, { st with spawns := rest })

/-- Consume the next `sys::fork` result. -/
def popFork : M (Except String Nat) := fun st =>
  match st.forks with
  | [] => (.ok (.ok 0), st)
  | r :: rest => (.ok r, { st with forks := rest })

/-- Consume the next `sys::pipe2` result. -/
def popPipe : M (Except String (Nat × Nat)) := fun st =>
  match st.pipes with
  | [] => (.ok (.ok (0, 0)), st)
  | r :: rest => (.ok r, { st with pipes := rest })

/-- Consume the next `File::try_clone` result. -/
def popClone : M (Except String Nat) := fun st =>
  match st.clones with
  | [] => (.ok (.ok 0), st)
  | r :: rest => (.ok r, { st with clones := rest })

/-- Consume the next `sys::dup` result. -/
def popDup : M (Except String Nat) := fun st =>
  match st.dups with
  | [] => (.ok (.ok 0), st)
  | r :: rest => (.ok r, { st with dups := rest })

/-- Consume the next `watch_foreground` return status. -/
def popWatch : M Int := fun st =>
  match st.watches with
  | [] => (.ok 0, st)
  | r :: rest => (.ok r, { st with watches := rest })

/-- Consume the next registered-builtin return code. -/
def popBuiltinRet : M Int := fun st =>
  match st.builtinRets with
  | [] => (.ok 0, st)
  | r :: rest => (.ok r, { st with builtinRets := rest })

/-- Read the builtin registry. -/
def getBuiltins : M (List String) := fun st => (.ok st.builtinsReg, st)

/-- `redir` (mod.rs:27-32): install `old` over `new` via `dup2`.  A `dup2`
failure is only logged and is non-fatal, so the model records the call as
an event. -/
def redirM (old new : Nat) : M Unit := recordEv (.redirFd old new)

/-- The local `close` helper inside `pipe` (mod.rs:179-185) /
`sys::close`: record the close of a backed-up fd. -/
def closeM (fd : Nat) : M Unit := recordEv (.closeFd fd)

/-- `builtin` (mod.rs:454-474): install the attached fds over the standard
streams (stdin, stdout, stderr, in that order), then look the name up in
the registry — `unwrap` panics when the name is absent (the documented
precondition) — and run the registered main, whose return code is the next
oracle builtin return code. -/
def builtinCall (name : String) (args : List String)
    (stdoutFd stderrFd stdinFd : Option Nat) : M Int := do
  match stdinFd with
  | some fd => redirM fd 0
  | none => pureM ()
  match stdoutFd with
  | some fd => redirM fd 1
  | none => pureM ()
  match stderrFd with
  | some fd => redirM fd 2
  | none => pureM ()
  let reg ← getBuiltins
  if reg.contains name then do
    recordEv (.builtinRun name args)
    popBuiltinRet
  else
    throwM (.panicked "called Option::unwrap on a None value")

/-- `execute` (mod.rs:362-415): the single-job path.  An external job is
spawned (pre-exec hook and `tcsetpgrp` have no modelled effect) and
delegated to `watch_foreground(pid, pid, long, noop)`; on spawn failure a
NotFound error prints a command-not-found line, any other error prints a
spawn-error line, and `FAILURE` is returned.  A builtin backs up the three
standard fds via `dup` (stdout, stderr, stdin, in that order), runs the
builtin, restores the fds on return, and returns the builtin's code; a
failing `dup` closes the already-taken backups, prints a diagnostic and
returns `FAILURE` without running the builtin.  The `.launch` event is
ghost instrumentation marking that the driver executed this job. -/
def execute (job : RefinedJob) : M Int := do
  recordEv (.launch job)
  match job with
  | .External c a i o e => do
      match ← popSpawn with
      | .ok pid => do
          recordEv (.watchForeground pid pid (RefinedJob.External c a i o e).long)
          popWatch
      | .error err => do
          if err.kind = .notFound then
            recordEv (.err ("ion: command not found: " ++ c))
          else
            recordEv (.err ("ion: error spawning process: " ++ err.msg))
          pureM FAILURE
  | .Builtin n a i o e => do
      match ← popDup with
      | .ok stdout_bk =>
          match ← popDup with
          | .ok stderr_bk =>
              match ← popDup with
              | .ok stdin_bk => do
                  let code ← builtinCall n a o e i
                  redirM stdout_bk 1
                  redirM stderr_bk 2
                  redirM stdin_bk 0
                  pureM code
              | .error _ => do
                  closeM stderr_bk
                  closeM stdout_bk
                  recordEv (.err ("ion: failed to `dup` STDOUT, STDIN, or STDERR: not running '" ++ (RefinedJob.Builtin n a i o e).long ++ "'"))
                  pureM FAILURE
          | .error _ => do
              closeM stdout_bk
              recordEv (.err ("ion: failed to `dup` STDOUT, STDIN, or STDERR: not running '" ++ (RefinedJob.Builtin n a i o e).long ++ "'"))
              pureM FAILURE
      | .error _ => do
          recordEv (.err ("ion: failed to `dup` STDOUT, STDIN, or STDERR: not running '" ++ (RefinedJob.Builtin n a i o e).long ++ "'"))
          pureM FAILURE

/-- The `on_exit` closure handed to `watch_foreground` by `wait`
(mod.rs:438-441): find the exiting pid in `children`, and remove that
index from both `commands` (the `remember` vector, whose removal drops the
parent-held pipe fds of that stage) and `children`.  `Vec::remove` panics
when the index is out of range of `commands`, modelled by `none`. -/
def waitOnExit (children : List Nat) (commands : List RefinedJob) (pid : Int) :
    Option (List Nat × List RefinedJob) :=
  match List.findIdx? (fun x : Nat => ((x : Int) == pid)) children with
  | some id =>
      if id < commands.length then
        some (children.eraseIdx id, commands.eraseIdx id)
      else none
  | none => some (children, commands)

/-- `wait` (mod.rs:419-443): join the long labels with " | ", take
`children[0]` as pgid — a panic when `children` is empty — and
`children[children.len() - 1]` as the last pid, delegate to
`watch_foreground` (whose `on_exit` closure is modelled by `waitOnExit`)
and return its status. -/
def waitM (children : List Nat) (commands : List RefinedJob) : M Int := do
  let as_string := String.intercalate " | " (commands.map RefinedJob.long)
  match children with
  | [] => throwM (.panicked "index out of bounds: the len is 0 but the index is 0")
  | c0 :: rest => do
      recordEv (.watchForeground c0 ((c0 :: rest).getLastD 0) as_string)
      popWatch

/-- The pipe-wiring step at the head of the inner segment loop
(mod.rs:298-325): create a pipe, attach its reader to the next job's
stdin, and attach its writer to the current parent according to `mode`
(Both additionally `try_clone`s the writer; a clone failure logs and
leaves the parent unwired).  A `pipe2` failure logs and leaves both jobs
unwired. -/
def wire (parent child : RefinedJob) (mode : RedirectFrom) :
    M (RefinedJob × RefinedJob) := do
  match ← popPipe with
  | .error e => do
      recordEv (.err ("ion: failed to create pipe: " ++ e))
      pureM (parent, child)
  | .ok (reader, writer) =>
      let child' := child.setStdin reader
      match mode with
      | .Stderr => pureM (parent.setStderr writer, child')
      | .Stdout => pureM (parent.setStdout writer, child')
      | .Both => do
          match ← popClone with
          | .error e => do
              recordEv (.err ("ion: failed to redirect stdout and stderr: " ++ e))
              pureM (parent, child')
          | .ok duped =>
              pureM ((parent.setStderr writer).setStdout duped, child')

/-- The `spawn_proc!` macro inside `pipe` (mod.rs:222-294): launch one job
of a pipe segment.  An external job is spawned; on success its pid seeds
the pgid (when still 0) and is pushed onto `children`; on failure a
diagnostic is printed and the whole `pipe` call returns
`NO_SUCH_COMMAND`.  A builtin job is forked; the parent side enrolls the
pid exactly as for an external; a fork failure is logged and the job is
skipped (the child side runs in the child process and is not part of the
parent semantics).  `tcsetpgrp` and the foreground-roster push have no
modelled effect.  Returns the updated `children` and `pgid`. -/
def spawnProc (cmd : RefinedJob) (children : List Nat) (pgid : Nat) :
    M (List Nat × Nat) := do
  recordEv (.launch cmd)
  match cmd with
  | .External _ _ _ _ _ => do
      match ← popSpawn with
      | .ok pid => pureM (children ++ [pid], if pgid = 0 then pid else pgid)
      | .error e => do
          recordEv (.err ("ion: failed to spawn `" ++ cmd.short ++ "`: " ++ e.msg))
          throwM (.ret NO_SUCH_COMMAND)
  | .Builtin _ _ _ _ _ => do
      match ← popFork with
      | .ok pid => pureM (children ++ [pid], if pgid = 0 then pid else pgid)
      | .error e => do
          recordEv (.err ("ion: failed to fork " ++ cmd.short ++ ": " ++ e))
          pureM (children, pgid)

/-- Traversal context of the `pipe` loop (mod.rs:187-358): either between
jobs, carrying `previous_status` and `previous_kind`, or inside the inner
while-loop of a pipe segment (mod.rs:297-342), carrying the segment's
current parent job, the pipe mode of its outgoing edge, the `children`
pid vector, the `remember` job vector and the segment pgid. -/
inductive Ctx where
  | normal (prevStatus : Int) (prevKind : JobKind)
  | inSeg (parent : RefinedJob) (mode : RedirectFrom) (children : List Nat)
      (remember : List RefinedJob) (pgid : Nat)
  deriving DecidableEq, Repr

/-- The body of `pipe` (mod.rs:190-358), restructured so that every call
consumes exactly one element of the command list (the Rust code advances
a single iterator from two nested loops; the `Ctx` argument records which
loop is active).

`.normal` with a job at hand is the head of the outer loop: the
short-circuit gate (mod.rs:193-207) either skips the job — updating
`previous_kind` exactly as the source does — or dispatches on its kind: a
`Pipe` edge opens a segment with this job as parent (mod.rs:210-220), any
other kind runs the job via the single-job `execute` path (mod.rs:350-353).

`.inSeg` with a job at hand is one iteration of the inner while-loop:
wire a fresh pipe between parent and the pulled job, launch the parent,
push it onto `remember`, then either advance the segment (next edge is a
`Pipe`) or launch the pulled job as the segment tail, `wait` on the
segment, send SIGTERM and return immediately when the status is
TERMINATED (mod.rs:343-348), and fall back to the outer loop otherwise.

`.inSeg` with the list exhausted is the while-loop ending on a drained
iterator: `wait` runs on whatever was launched (`previous_kind` keeps the
segment's `Pipe` kind, which no further iteration can read), the
TERMINATED check still fires, and the drained outer loop then returns. -/
def pipeStep (ctx : Ctx) (cmds : List (RefinedJob × JobKind)) : M Int :=
  match ctx, cmds with
  | .normal prevStatus _, [] => pureM prevStatus
  | .normal prevStatus prevKind, (parent, kind) :: rest =>
      match prevKind with
      | .And =>
          if prevStatus ≠ SUCCESS then
            pipeStep (.normal prevStatus (match kind with | .Or => .Or | _ => .And)) rest
          else
            match kind with
            | .Pipe mode => pipeStep (.inSeg parent mode [] [] 0) rest
            | _ => do
                let s ← execute parent
                pipeStep (.normal s kind) rest
      | .Or =>
          if prevStatus = SUCCESS then
            pipeStep (.normal prevStatus (match kind with | .And => .And | _ => .Or)) rest
          else
            match kind with
            | .Pipe mode => pipeStep (.inSeg parent mode [] [] 0) rest
            | _ => do
                let s ← execute parent
                pipeStep (.normal s kind) rest
      | _ =>
          match kind with
          | .Pipe mode => pipeStep (.inSeg parent mode [] [] 0) rest
          | _ => do
              let s ← execute parent
              pipeStep (.normal s kind) rest
  | .inSeg _ _ children remember _, [] => do
      let s ← waitM children remember
      if s = TERMINATED then do
        recordEv .sigterm
        throwM (.ret s)
      else
        pureM s
  | .inSeg parent mode children remember pgid, (child, ckind) :: rest => do
      let (parent', child') ← wire parent child mode
      let (children', pgid') ← spawnProc parent' children pgid
      let remember' := remember ++ [parent']
      match ckind with
      | .Pipe m => pipeStep (.inSeg child' m children' remember' pgid') rest
      | _ => do
          let (children'', _pgid'') ← spawnProc child' children' pgid'
          let remember'' := remember' ++ [child']
          let s ← waitM children'' remember''
          if s = TERMINATED then do
            recordEv .sigterm
            throwM (.ret s)
          else
            pipeStep (.normal s ckind) rest

/-- `pipe` (mod.rs:176-360): run the refined job list with
`previous_status` seeded to SUCCESS and `previous_kind` to `And`
(mod.rs:187-188).  The `foreground` flag only governs `tcsetpgrp` calls,
which have no modelled effect, so it is not a parameter here. -/
def pipe (commands : List (RefinedJob × JobKind)) : M Int :=
  pipeStep (.normal SUCCESS .And) commands

/-- Collapse the abort layer the way the Rust control flow does: an early
`return s` and a normal return are the same observable exit status, a
panic stays a panic. -/
def mergeOutcome {α : Type} : Except Abort Int × α → Outcome × α
  | (.ok s, st) => (.status s, st)
  | (.error (.ret s), st) => (.status s, st)
  | (.error (.panicked m), st) => (.panicked m, st)

/-- Run `pipe` from an initial oracle state and observe the outcome. -/
def runPipe (st : St) (commands : List (RefinedJob × JobKind)) : Outcome × St :=
  mergeOutcome (pipe commands st)

/-! ## Helper lemmas -/

theorem bindM_apply {α β : Type} (m : M α) (k : α → M β) (st : St) :
    bindM m k st =
      match m st with
      | (.ok a, st') => k a st'
      | (.error e, st') => (.error e, st') := rfl

theorem bindM_pureM {α : Type} (m : M α) (st : St) :
    bindM m (fun a => pureM a) st = m st := by
  rw [bindM_apply]
  rcases m st with ⟨r, st'⟩
  cases r <;> rfl

theorem bind_eq_bindM {α β : Type} (m : M α) (k : α → M β) :
    m >>= k = bindM m k := rfl

/-! ## Claims -/

/-- C10: `pipe` applied to an empty command list returns SUCCESS without
launching any process, calling the waiter, or touching any oracle stream
(the state — trace included — is returned unchanged), even though the doc
comment on `pipe` announces a panic on an empty slice. -/
theorem pipe_empty_success (st : St) :
    runPipe st [] = (Outcome.status SUCCESS, st) := rfl

/-- C1: the short-circuit gate of `pipe`.  (1) With `previous_kind = And`
and `previous_status ≠ SUCCESS` the current job is skipped — the traversal
continues on the rest with no effect — and `previous_kind` becomes `Or`
exactly when the job's kind is `Or`.  (2) With `previous_kind = Or` and
`previous_status = SUCCESS` the job is skipped and `previous_kind` becomes
`And` exactly when the kind is `And`.  (3) In every other case the job is
dispatched: a `Pipe` kind opens a segment headed by the job, any other
kind runs the job through the single-job `execute` path.  Consequently
(4) in `A && B` the job B is executed iff A's status is SUCCESS, and
(5) in `A || B` the job B is executed iff A's status is not SUCCESS. -/
theorem pipe_short_circuit :
    (∀ (s : Int) (j : RefinedJob) (kind : JobKind) (rest : List (RefinedJob × JobKind)),
      s ≠ SUCCESS →
      pipeStep (.normal s .And) ((j, kind) :: rest) =
        pipeStep (.normal s (match kind with | .Or => .Or | _ => .And)) rest) ∧
    (∀ (s : Int) (j : RefinedJob) (kind : JobKind) (rest : List (RefinedJob × JobKind)),
      s = SUCCESS →
      pipeStep (.normal s .Or) ((j, kind) :: rest) =
        pipeStep (.normal s (match kind with | .And => .And | _ => .Or)) rest) ∧
    (∀ (s : Int) (pk : JobKind) (j : RefinedJob) (kind : JobKind)
        (rest : List (RefinedJob × JobKind)),
      ((pk = .And ∧ s = SUCCESS) ∨ (pk = .Or ∧ s ≠ SUCCESS) ∨ (pk ≠ .And ∧ pk ≠ .Or)) →
      pipeStep (.normal s pk) ((j, kind) :: rest) =
        (match kind with
          | .Pipe mode => pipeStep (.inSeg j mode [] [] 0) rest
          | _ => bindM (execute j) (fun s' => pipeStep (.normal s' kind) rest))) ∧
    (∀ (A B : RefinedJob) (st0 st1 : St) (sA : Int),
      execute A st0 = (.ok sA, st1) →
      pipe [(A, .And), (B, .Last)] st0 =
        if sA = SUCCESS then execute B st1 else (.ok sA, st1)) ∧
    (∀ (A B : RefinedJob) (st0 st1 : St) (sA : Int),
      execute A st0 = (.ok sA, st1) →
      pipe [(A, .Or), (B, .Last)] st0 =
        if sA = SUCCESS then (.ok sA, st1) else execute B st1) := by
  refine ⟨?_, ?_, ?_, ?_, ?_⟩
  · intro s j kind rest hs
    simp [pipeStep, hs]
  · intro s j kind rest hs
    simp [pipeStep, hs]
  · intro s pk j kind rest h
    rcases h with ⟨hpk, hs⟩ | ⟨hpk, hs⟩ | ⟨h1, h2⟩
    · subst hpk; subst hs
      cases kind <;> simp [pipeStep, SUCCESS, bind_eq_bindM]
    · subst hpk
      cases kind <;> simp [pipeStep, hs, bind_eq_bindM]
    · cases pk <;> first
        | exact absurd rfl h1
        | exact absurd rfl h2
        | (cases kind <;> simp [pipeStep, bind_eq_bindM])
  · intro A B st0 st1 sA hA
    have h1 : pipe [(A, .And), (B, .Last)] st0 =
        bindM (execute A) (fun s' => pipeStep (.normal s' .And) [(B, .Last)]) st0 := by
      simp [pipe, pipeStep, SUCCESS, bind_eq_bindM]
    rw [h1, bindM_apply, hA]
    show pipeStep (.normal sA .And) [(B, .Last)] st1 = _
    by_cases hs : sA = SUCCESS
    · rw [if_pos hs]
      subst hs
      have h2 : pipeStep (.normal SUCCESS .And) [(B, .Last)] st1 =
          bindM (execute B) (fun s' => pipeStep (.normal s' .Last) []) st1 := by
        simp [pipeStep, SUCCESS, bind_eq_bindM]
      rw [h2]
      have h3 : (fun s' => pipeStep (.normal s' JobKind.Last) ([] : List (RefinedJob × JobKind)))
          = fun s' : Int => pureM s' := rfl
      rw [h3, bindM_pureM]
    · rw [if_neg hs]
      have h2 : pipeStep (.normal sA .And) [(B, .Last)] st1 =
          pipeStep (.normal sA .And) [] st1 := by
        simp [pipeStep, hs]
      rw [h2]
      rfl
  · intro A B st0 st1 sA hA
    have h1 : pipe [(A, .Or), (B, .Last)] st0 =
        bindM (execute A) (fun s' => pipeStep (.normal s' .Or) [(B, .Last)]) st0 := by
      simp [pipe, pipeStep, SUCCESS, bind_eq_bindM]
    rw [h1, bindM_apply, hA]
    show pipeStep (.normal sA .Or) [(B, .Last)] st1 = _
    by_cases hs : sA = SUCCESS
    · rw [if_pos hs]
      have h2 : pipeStep (.normal sA .Or) [(B, .Last)] st1 =
          pipeStep (.normal sA .Or) [] st1 := by
        simp [pipeStep, hs]
      rw [h2]
      rfl
    · rw [if_neg hs]
      have h2 : pipeStep (.normal sA .Or) [(B, .Last)] st1 =
          bindM (execute B) (fun s' => pipeStep (.normal s' .Last) []) st1 := by
        simp [pipeStep, hs, bind_eq_bindM]
      rw [h2]
      have h3 : (fun s' => pipeStep (.normal s' JobKind.Last) ([] : List (RefinedJob × JobKind)))
          = fun s' : Int => pureM s' := rfl
      rw [h3, bindM_pureM]

/-- Witness for C1 at concrete inputs: a failed status skips the next
`And`-chained job, a successful status skips the next `Or`-chained job, a
`Last` previous kind dispatches, and concrete `A && B` / `A || B` pairs
reduce as the theorem states. -/
theorem pipe_short_circuit_check :
    (pipeStep (.normal 1 .And)
        [(RefinedJob.External "true" [] none none none, .Or)] =
      pipeStep (.normal 1 .Or) []) ∧
    (pipeStep (.normal 0 .Or)
        [(RefinedJob.External "true" [] none none none, .And)] =
      pipeStep (.normal 0 .And) []) ∧
    (pipeStep (.normal 7 .Last)
        [(RefinedJob.External "true" [] none none none, .Last)] =
      bindM (execute (RefinedJob.External "true" [] none none none))
        (fun s' => pipeStep (.normal s' .Last) [])) ∧
    (pipe [(RefinedJob.External "false" [] none none none, .And),
           (RefinedJob.External "echo" ["y"] none none none, .Last)]
        ⟨[], [Except.ok 5], [], [], [], [], [0], [], []⟩ =
      if (0 : Int) = SUCCESS then
        execute (RefinedJob.External "echo" ["y"] none none none)
          ⟨[], [], [], [], [], [], [], [],
           [Event.launch (RefinedJob.External "false" [] none none none),
            Event.watchForeground 5 5 (RefinedJob.External "false" [] none none none).long]⟩
      else
        (Except.ok 0,
         ⟨[], [], [], [], [], [], [], [],
          [Event.launch (RefinedJob.External "false" [] none none none),
           Event.watchForeground 5 5 (RefinedJob.External "false" [] none none none).long]⟩)) ∧
    (pipe [(RefinedJob.External "false" [] none none none, .Or),
           (RefinedJob.External "echo" ["y"] none none none, .Last)]
        ⟨[], [Except.ok 5], [], [], [], [], [0], [], []⟩ =
      if (0 : Int) = SUCCESS then
        (Except.ok 0,
         ⟨[], [], [], [], [], [], [], [],
          [Event.launch (RefinedJob.External "false" [] none none none),
           Event.watchForeground 5 5 (RefinedJob.External "false" [] none none none).long]⟩)
      else
        execute (RefinedJob.External "echo" ["y"] none none none)
          ⟨[], [], [], [], [], [], [], [],
           [Event.launch (RefinedJob.External "false" [] none none none),
            Event.watchForeground 5 5 (RefinedJob.External "false" [] none none none).long]⟩) := by
  refine ⟨?_, ?_, ?_, ?_, ?_⟩
  · exact pipe_short_circuit.1 1 _ .Or [] (by decide)
  · exact pipe_short_circuit.2.1 0 _ .And [] rfl
  · exact pipe_short_circuit.2.2.1 7 .Last _ .Last []
      (Or.inr (Or.inr ⟨by decide, by decide⟩))
  · exact pipe_short_circuit.2.2.2.1 _ _ _ _ 0 rfl
  · exact pipe_short_circuit.2.2.2.2 _ _ _ _ 0 rfl

/-- C2, counterexample: the claim promises the TERMINATED policy
"regardless of whether the child ran inside a pipe segment or via the
single-job execute path", but the single-job arm of `pipe`
(mod.rs:350-353) stores the status without any TERMINATED check.  Here
the first job of `A || B` is reaped TERMINATED (its `watch_foreground`
status), yet no SIGTERM is broadcast, B is still launched, and the driver
returns B's SUCCESS instead of TERMINATED. -/
theorem terminated_single_job_counterexample :
    runPipe ⟨[], [Except.ok 10, Except.ok 11], [], [], [], [], [TERMINATED, SUCCESS], [], []⟩
        [(RefinedJob.External "cmda" [] none none none, .Or),
         (RefinedJob.External "cmdb" [] none none none, .Last)] =
      (Outcome.status SUCCESS,
       ⟨[], [], [], [], [], [], [], [],
        [Event.launch (RefinedJob.External "cmda" [] none none none),
         Event.watchForeground 10 10 (RefinedJob.External "cmda" [] none none none).long,
         Event.launch (RefinedJob.External "cmdb" [] none none none),
         Event.watchForeground 11 11 (RefinedJob.External "cmdb" [] none none none).long]⟩) ∧
    Event.sigterm ∉
      (runPipe ⟨[], [Except.ok 10, Except.ok 11], [], [], [], [], [TERMINATED, SUCCESS], [], []⟩
        [(RefinedJob.External "cmda" [] none none none, .Or),
         (RefinedJob.External "cmdb" [] none none none, .Last)]).2.trace := by
  have h1 :
      runPipe ⟨[], [Except.ok 10, Except.ok 11], [], [], [], [], [TERMINATED, SUCCESS], [], []⟩
          [(RefinedJob.External "cmda" [] none none none, .Or),
           (RefinedJob.External "cmdb" [] none none none, .Last)] =
        (Outcome.status SUCCESS,
         ⟨[], [], [], [], [], [], [], [],
          [Event.launch (RefinedJob.External "cmda" [] none none none),
           Event.watchForeground 10 10 (RefinedJob.External "cmda" [] none none none).long,
           Event.launch (RefinedJob.External "cmdb" [] none none none),
           Event.watchForeground 11 11 (RefinedJob.External "cmdb" [] none none none).long]⟩) := by
    simp [runPipe, mergeOutcome, pipe, pipeStep, bindM, pureM, execute, recordEv, popSpawn,
          popWatch, waitM, throwM, wire, spawnProc, popPipe, popFork, popDup, popClone,
          popBuiltinRet, getBuiltins, builtinCall, redirM, closeM, bind_eq_bindM,
          SUCCESS, TERMINATED]
  refine ⟨h1, ?_⟩
  rw [h1]
  decide

/-- C2, amended: a child reaped TERMINATED causes the SIGTERM broadcast,
abandonment of all remaining jobs and an immediate TERMINATED return
only when it ran inside a pipe segment (mod.rs:343-348); on the
single-job execute path the TERMINATED status is merely recorded as
`previous_status` and traversal continues.  First part: a two-job pipe
segment whose waiter reports TERMINATED broadcasts SIGTERM and returns
TERMINATED with every job of `rest` abandoned (the final trace contains
no event for them).  Second part: the same reap on the single-job path
launches the `Or`-chained successor and returns its status, with no
SIGTERM event. -/
theorem terminated_segment_aborts :
    (∀ (c1 c2 : String) (a1 a2 : List String) (rest : List (RefinedJob × JobKind)),
      runPipe ⟨[], [Except.ok 10, Except.ok 11], [], [Except.ok (3, 4)], [], [], [TERMINATED], [], []⟩
          ((RefinedJob.External c1 a1 none none none, .Pipe .Stdout) ::
            (RefinedJob.External c2 a2 none none none, .Last) :: rest) =
        (Outcome.status TERMINATED,
         ⟨[], [], [], [], [], [], [], [],
          [Event.launch (RefinedJob.External c1 a1 none (some 4) none),
           Event.launch (RefinedJob.External c2 a2 (some 3) none none),
           Event.watchForeground 10 11
             (String.intercalate " | "
               [(RefinedJob.External c1 a1 none (some 4) none).long,
                (RefinedJob.External c2 a2 (some 3) none none).long]),
           Event.sigterm]⟩)) ∧
    (∀ (c1 c2 : String) (a1 a2 : List String),
      runPipe ⟨[], [Except.ok 10, Except.ok 11], [], [], [], [], [TERMINATED, SUCCESS], [], []⟩
          [(RefinedJob.External c1 a1 none none none, .Or),
           (RefinedJob.External c2 a2 none none none, .Last)] =
        (Outcome.status SUCCESS,
         ⟨[], [], [], [], [], [], [], [],
          [Event.launch (RefinedJob.External c1 a1 none none none),
           Event.watchForeground 10 10 (RefinedJob.External c1 a1 none none none).long,
           Event.launch (RefinedJob.External c2 a2 none none none),
           Event.watchForeground 11 11 (RefinedJob.External c2 a2 none none none).long]⟩)) := by
  constructor
  · intro c1 c2 a1 a2 rest
    simp [runPipe, mergeOutcome, pipe, pipeStep, bindM, pureM, execute, recordEv, popSpawn,
          popWatch, waitM, throwM, wire, spawnProc, popPipe, popFork, popDup, popClone,
          popBuiltinRet, getBuiltins, builtinCall, redirM, closeM, bind_eq_bindM,
          RefinedJob.setStdin, RefinedJob.setStdout, RefinedJob.long,
          SUCCESS, TERMINATED]
  · intro c1 c2 a1 a2
    simp [runPipe, mergeOutcome, pipe, pipeStep, bindM, pureM, execute, recordEv, popSpawn,
          popWatch, waitM, throwM, wire, spawnProc, popPipe, popFork, popDup, popClone,
          popBuiltinRet, getBuiltins, builtinCall, redirM, closeM, bind_eq_bindM,
          SUCCESS, TERMINATED]

/-- C3, counterexample: for a registered, non-implicit-cd command the
classifier (mod.rs:90) passes `job.args.drain().collect()` — the entire
original argument vector, command word included — to
`RefinedJob::builtin`, not "the original argument vector with the command
name removed" as the claim states. -/
theorem builtin_argv_counterexample :
    classify ["echo"] ⟨"echo", ["echo", "hi"], .Last⟩ =
      (RefinedJob.Builtin "echo" ["echo", "hi"] none none none, .Last) ∧
    (classify ["echo"] ⟨"echo", ["echo", "hi"], .Last⟩).1 ≠
      RefinedJob.Builtin "echo" ["hi"] none none none := by decide

/-- C3, amended: for every parsed job whose argv[0] is not an implicit-cd
trigger and whose command is in the builtin registry, the classifier
emits a Builtin whose name is the command and whose argv is the entire
original argument vector (the command word stays at index 0); the job's
kind is copied verbatim. -/
theorem classify_builtin_full_argv (builtins : List String) (job : ParsedJob)
    (h1 : is_implicit_cd (job.args.headD "") = false)
    (h2 : builtins.contains job.command = true) :
    classify builtins job =
      (RefinedJob.Builtin job.command job.args none none none, job.kind) := by
  have h2' : job.command ∈ builtins := by simpa using h2
  have h1' : is_implicit_cd (job.args.head?.getD "") = false := by simpa using h1
  simp [classify, h1', h2']

/-- Witness for the amended C3 at a concrete job. -/
theorem classify_builtin_full_argv_check :
    classify ["echo"] ⟨"echo", ["echo", "a", "b"], .And⟩ =
      (RefinedJob.Builtin "echo" ["echo", "a", "b"] none none none, .And) :=
  classify_builtin_full_argv ["echo"] ⟨"echo", ["echo", "a", "b"], .And⟩
    (by decide) (by decide)

/-- C4, counterexample: fork failure is a handled error ("log, skip that
stage, continue"), yet when every fork of a pipe segment fails the
segment reaches `wait` with an empty `children` vector and the indexing
`children[0]` (mod.rs:428) panics.  So the claim that no handled error
causes a panic — and that every reachable `wait` call sees a non-empty
pid vector — fails on this input. -/
theorem wait_empty_children_panics_example :
    runPipe ⟨[], [], [Except.error "EAGAIN", Except.error "EAGAIN"], [Except.ok (3, 4)], [], [], [], [], []⟩
        [(RefinedJob.Builtin "a" ["a"] none none none, .Pipe .Stdout),
         (RefinedJob.Builtin "b" ["b"] none none none, .Last)] =
      (Outcome.panicked "index out of bounds: the len is 0 but the index is 0",
       ⟨[], [], [], [], [], [], [], [],
        [Event.launch (RefinedJob.Builtin "a" ["a"] none (some 4) none),
         Event.err "ion: failed to fork a: EAGAIN",
         Event.launch (RefinedJob.Builtin "b" ["b"] (some 3) none none),
         Event.err "ion: failed to fork b: EAGAIN"]⟩) := by
  simp [runPipe, mergeOutcome, pipe, pipeStep, bindM, pureM, execute, recordEv, popSpawn,
        popWatch, waitM, throwM, wire, spawnProc, popPipe, popFork, popDup, popClone,
        popBuiltinRet, getBuiltins, builtinCall, redirM, closeM, bind_eq_bindM,
        RefinedJob.setStdin, RefinedJob.setStdout, RefinedJob.short,
        SUCCESS, TERMINATED]

/-- C4, amended: the waiter's indexing of `children[0]` and
`children[children.len()-1]` panics exactly when the segment recorded no
child pid: with at least one recorded pid, `wait` cannot panic — it
delegates to `watch_foreground` and returns its status — while with an
empty pid vector it panics.  (All other handled error conditions leave
no panic path in the embedded core; the builtin executor's unregistered
name `unwrap` stays the one intended panic.) -/
theorem wait_panic_iff_no_children :
    (∀ (c0 : Nat) (rest : List Nat) (rem : List RefinedJob) (st : St),
      waitM (c0 :: rest) rem st =
        (Except.ok (st.watches.headD 0),
         { st with
            watches := st.watches.tail,
            trace := st.trace ++
              [Event.watchForeground c0 ((c0 :: rest).getLastD 0)
                (String.intercalate " | " (rem.map RefinedJob.long))] })) ∧
    (∀ (rem : List RefinedJob) (st : St),
      waitM [] rem st =
        (Except.error (Abort.panicked "index out of bounds: the len is 0 but the index is 0"),
         st)) := by
  constructor
  · intro c0 rest rem st
    rcases st with ⟨reg, sp, fk, pp, cl, dp, w, br, tr⟩
    cases w <;> rfl
  · intro rem st
    rfl

/-- C5: the single-job builtin path of `execute` (mod.rs:390-413).
Part 1: when the three `dup` backups (stdout, stderr, stdin, in source
order) succeed, the builtin runs on the state in which the backups have
been taken, and — whatever code it returns — fds 1, 2 and 0 are restored
from the backups right after it returns, the builtin's own return code
becoming `execute`'s result.  (A Rust panic inside the builtin unwinds
without restoring; the embedded `.error` outcome likewise propagates
unchanged, which is the same exit behaviour as the source.)
Parts 2-4: when the first / second / third `dup` fails, the already-taken
backups are closed (most recent first), the diagnostic is printed,
FAILURE is returned, and the builtin is never invoked (the final trace
contains no `builtinRun` event and the builtin-return stream is
untouched). -/
theorem execute_builtin_fd_discipline :
    (∀ (n : String) (a : List String) (i o e : Option Nat) (bk1 bk2 bk3 : Nat)
        (dtail : List (Except String Nat)) (st st' : St) (code : Int),
      st.dups = .ok bk1 :: .ok bk2 :: .ok bk3 :: dtail →
      builtinCall n a o e i
          { st with
              dups := dtail
              trace := st.trace ++ [Event.launch (.Builtin n a i o e)] } =
        (.ok code, st') →
      execute (.Builtin n a i o e) st =
        (.ok code,
         { st' with trace := st'.trace ++
            [Event.redirFd bk1 1, Event.redirFd bk2 2, Event.redirFd bk3 0] })) ∧
    (∀ (n : String) (a : List String) (i o e : Option Nat) (d1 : String)
        (dtail : List (Except String Nat)) (st : St),
      st.dups = .error d1 :: dtail →
      execute (.Builtin n a i o e) st =
        (.ok FAILURE,
         { st with
             dups := dtail
             trace := st.trace ++
            [Event.launch (.Builtin n a i o e),
             Event.err ("ion: failed to `dup` STDOUT, STDIN, or STDERR: not running '" ++
               (RefinedJob.Builtin n a i o e).long ++ "'")] })) ∧
    (∀ (n : String) (a : List String) (i o e : Option Nat) (bk1 : Nat) (d2 : String)
        (dtail : List (Except String Nat)) (st : St),
      st.dups = .ok bk1 :: .error d2 :: dtail →
      execute (.Builtin n a i o e) st =
        (.ok FAILURE,
         { st with
             dups := dtail
             trace := st.trace ++
            [Event.launch (.Builtin n a i o e), Event.closeFd bk1,
             Event.err ("ion: failed to `dup` STDOUT, STDIN, or STDERR: not running '" ++
               (RefinedJob.Builtin n a i o e).long ++ "'")] })) ∧
    (∀ (n : String) (a : List String) (i o e : Option Nat) (bk1 bk2 : Nat) (d3 : String)
        (dtail : List (Except String Nat)) (st : St),
      st.dups = .ok bk1 :: .ok bk2 :: .error d3 :: dtail →
      execute (.Builtin n a i o e) st =
        (.ok FAILURE,
         { st with
             dups := dtail
             trace := st.trace ++
            [Event.launch (.Builtin n a i o e), Event.closeFd bk2, Event.closeFd bk1,
             Event.err ("ion: failed to `dup` STDOUT, STDIN, or STDERR: not running '" ++
               (RefinedJob.Builtin n a i o e).long ++ "'")] })) := by
  refine ⟨?_, ?_, ?_, ?_⟩
  · intro n a i o e bk1 bk2 bk3 dtail st st' code hd hb
    rcases st with ⟨reg, sp, fk, pp, cl, dp, w, br, tr⟩
    simp only at hd
    subst hd
    simp only at hb
    simp [execute, bindM, pureM, recordEv, popDup, redirM, bind_eq_bindM, hb]
  · intro n a i o e d1 dtail st hd
    rcases st with ⟨reg, sp, fk, pp, cl, dp, w, br, tr⟩
    simp only at hd
    subst hd
    simp [execute, bindM, pureM, recordEv, popDup, closeM, bind_eq_bindM]
  · intro n a i o e bk1 d2 dtail st hd
    rcases st with ⟨reg, sp, fk, pp, cl, dp, w, br, tr⟩
    simp only at hd
    subst hd
    simp [execute, bindM, pureM, recordEv, popDup, closeM, bind_eq_bindM]
  · intro n a i o e bk1 bk2 d3 dtail st hd
    rcases st with ⟨reg, sp, fk, pp, cl, dp, w, br, tr⟩
    simp only at hd
    subst hd
    simp [execute, bindM, pureM, recordEv, popDup, closeM, bind_eq_bindM]

/-- Witness for C5: a registered builtin with all three backups
succeeding returns its own code 7 with the three restores traced, and a
failing third backup closes the two taken backups and yields FAILURE. -/
theorem execute_builtin_fd_discipline_check :
    execute (.Builtin "echo" ["echo", "hi"] none none none)
        ⟨["echo"], [], [], [], [], [Except.ok 21, Except.ok 22, Except.ok 20], [], [7], []⟩ =
      (.ok 7,
       ⟨["echo"], [], [], [], [], [], [], [],
        [Event.launch (.Builtin "echo" ["echo", "hi"] none none none),
         Event.builtinRun "echo" ["echo", "hi"],
         Event.redirFd 21 1, Event.redirFd 22 2, Event.redirFd 20 0]⟩) ∧
    execute (.Builtin "echo" ["echo", "hi"] none none none)
        ⟨["echo"], [], [], [], [], [Except.ok 21, Except.ok 22, Except.error "EMFILE"], [], [7], []⟩ =
      (.ok FAILURE,
       ⟨["echo"], [], [], [], [], [], [], [7],
        [Event.launch (.Builtin "echo" ["echo", "hi"] none none none),
         Event.closeFd 22, Event.closeFd 21,
         Event.err ("ion: failed to `dup` STDOUT, STDIN, or STDERR: not running '" ++
           (RefinedJob.Builtin "echo" ["echo", "hi"] none none none).long ++ "'")]⟩) := by
  constructor
  · exact execute_builtin_fd_discipline.1 "echo" ["echo", "hi"] none none none 21 22 20 []
      ⟨["echo"], [], [], [], [], [Except.ok 21, Except.ok 22, Except.ok 20], [], [7], []⟩
      ⟨["echo"], [], [], [], [], [], [], [],
       [Event.launch (.Builtin "echo" ["echo", "hi"] none none none),
        Event.builtinRun "echo" ["echo", "hi"]]⟩ 7 rfl (by
          simp [builtinCall, bindM, pureM, recordEv, getBuiltins, popBuiltinRet,
                bind_eq_bindM])
  · exact execute_builtin_fd_discipline.2.2.2 "echo" ["echo", "hi"] none none none 21 22
      "EMFILE" []
      ⟨["echo"], [], [], [], [], [Except.ok 21, Except.ok 22, Except.error "EMFILE"], [], [7], []⟩
      rfl


/-- C6: external spawn failure.  Part 1: inside a pipe segment
(`spawn_proc!`, mod.rs:244-248) any spawn error prints
"ion: failed to spawn `<short>`: <err>" and aborts the whole `pipe` call
with NO_SUCH_COMMAND.  Part 2: the abort is the driver's: a failing
first spawn makes the whole pipeline return NO_SUCH_COMMAND whatever
jobs remain.  Parts 3-4: on the single-job path (mod.rs:381-388) a
NotFound error prints "ion: command not found: <short>", any other
error prints "ion: error spawning process: <err>", and FAILURE is
returned in both cases. -/
theorem spawn_failure_policy :
    (∀ (c : String) (a : List String) (i o e : Option Nat) (er : SpawnErr)
        (stail : List (Except SpawnErr Nat)) (ch : List Nat) (pg : Nat) (st : St),
      st.spawns = .error er :: stail →
      spawnProc (.External c a i o e) ch pg st =
        (.error (.ret NO_SUCH_COMMAND),
         { st with
             spawns := stail
             trace := st.trace ++
              [Event.launch (.External c a i o e),
               Event.err ("ion: failed to spawn `" ++ c ++ "`: " ++ er.msg)] })) ∧
    (∀ (c1 c2 : String) (a1 a2 : List String) (rest : List (RefinedJob × JobKind)),
      (runPipe ⟨[], [Except.error ⟨.notFound, "No such file or directory"⟩], [],
            [Except.ok (3, 4)], [], [], [], [], []⟩
          ((RefinedJob.External c1 a1 none none none, .Pipe .Stdout) ::
            (RefinedJob.External c2 a2 none none none, .Last) :: rest)).1 =
        Outcome.status NO_SUCH_COMMAND) ∧
    (∀ (c : String) (a : List String) (i o e : Option Nat) (msg : String)
        (stail : List (Except SpawnErr Nat)) (st : St),
      st.spawns = .error ⟨.notFound, msg⟩ :: stail →
      execute (.External c a i o e) st =
        (.ok FAILURE,
         { st with
             spawns := stail
             trace := st.trace ++
              [Event.launch (.External c a i o e),
               Event.err ("ion: command not found: " ++ c)] })) ∧
    (∀ (c : String) (a : List String) (i o e : Option Nat) (msg : String)
        (stail : List (Except SpawnErr Nat)) (st : St),
      st.spawns = .error ⟨.otherErr, msg⟩ :: stail →
      execute (.External c a i o e) st =
        (.ok FAILURE,
         { st with
             spawns := stail
             trace := st.trace ++
              [Event.launch (.External c a i o e),
               Event.err ("ion: error spawning process: " ++ msg)] })) := by
  refine ⟨?_, ?_, ?_, ?_⟩
  · intro c a i o e er stail ch pg st hs
    rcases st with ⟨reg, sp, fk, pp, cl, dp, w, br, tr⟩
    simp only at hs
    subst hs
    simp [spawnProc, bindM, pureM, recordEv, popSpawn, throwM, bind_eq_bindM,
          RefinedJob.short]
  · intro c1 c2 a1 a2 rest
    simp [runPipe, mergeOutcome, pipe, pipeStep, bindM, pureM, recordEv, popSpawn,
          popPipe, wire, spawnProc, throwM, bind_eq_bindM, RefinedJob.setStdin,
          RefinedJob.setStdout, RefinedJob.short, SUCCESS]
  · intro c a i o e msg stail st hs
    rcases st with ⟨reg, sp, fk, pp, cl, dp, w, br, tr⟩
    simp only at hs
    subst hs
    simp [execute, bindM, pureM, recordEv, popSpawn, bind_eq_bindM]
  · intro c a i o e msg stail st hs
    rcases st with ⟨reg, sp, fk, pp, cl, dp, w, br, tr⟩
    simp only at hs
    subst hs
    simp [execute, bindM, pureM, recordEv, popSpawn, bind_eq_bindM]

/-- Witness for C6 at concrete inputs: a failing segment spawn aborts
with NO_SUCH_COMMAND; a NotFound single-job spawn prints the not-found
line; another error prints the spawn-error line; both return FAILURE. -/
theorem spawn_failure_policy_check :
    spawnProc (.External "x" ["1"] none none none) [] 0
        ⟨[], [Except.error ⟨.otherErr, "EACCES"⟩], [], [], [], [], [], [], []⟩ =
      (.error (.ret NO_SUCH_COMMAND),
       ⟨[], [], [], [], [], [], [], [],
        [Event.launch (.External "x" ["1"] none none none),
         Event.err ("ion: failed to spawn `" ++ "x" ++ "`: " ++ "EACCES")]⟩) ∧
    execute (.External "nosuch" [] none none none)
        ⟨[], [Except.error ⟨.notFound, "No such file or directory"⟩], [], [], [], [], [], [], []⟩ =
      (.ok FAILURE,
       ⟨[], [], [], [], [], [], [], [],
        [Event.launch (.External "nosuch" [] none none none),
         Event.err ("ion: command not found: " ++ "nosuch")]⟩) ∧
    execute (.External "denied" [] none none none)
        ⟨[], [Except.error ⟨.otherErr, "Permission denied"⟩], [], [], [], [], [], [], []⟩ =
      (.ok FAILURE,
       ⟨[], [], [], [], [], [], [], [],
        [Event.launch (.External "denied" [] none none none),
         Event.err ("ion: error spawning process: " ++ "Permission denied")]⟩) := by
  refine ⟨?_, ?_, ?_⟩
  · exact spawn_failure_policy.1 "x" ["1"] none none none ⟨.otherErr, "EACCES"⟩ [] [] 0
      ⟨[], [Except.error ⟨.otherErr, "EACCES"⟩], [], [], [], [], [], [], []⟩ rfl
  · exact spawn_failure_policy.2.2.1 "nosuch" [] none none none "No such file or directory" []
      ⟨[], [Except.error ⟨.notFound, "No such file or directory"⟩], [], [], [], [], [], [], []⟩ rfl
  · exact spawn_failure_policy.2.2.2 "denied" [] none none none "Permission denied" []
      ⟨[], [Except.error ⟨.otherErr, "Permission denied"⟩], [], [], [], [], [], [], []⟩ rfl

/-- C7: the implicit-cd rule of the classifier (mod.rs:68-71, 86-88).
Whenever argv[0] starts with `.` or `/`, or ends with `/`
(`is_implicit_cd` is by definition exactly that disjunction), the
classifier emits `Builtin "cd"` with argv `"cd"` followed by the entire
original argument vector, the job's kind copied verbatim — for every
builtin registry, so the rule applies before and instead of the registry
and external rules even when the command is itself registered. -/
theorem implicit_cd_rule (builtins : List String) (job : ParsedJob)
    (h : is_implicit_cd (job.args.headD "") = true) :
    classify builtins job =
      (RefinedJob.Builtin "cd" ("cd" :: job.args) none none none, job.kind) := by
  have h' : is_implicit_cd (job.args.head?.getD "") = true := by simpa using h
  simp [classify, h']

/-- Witness for C7: `./prog -v` becomes `cd ./prog -v` even though
`./prog` is present in the builtin registry. -/
theorem implicit_cd_rule_check :
    classify ["./prog"] ⟨"./prog", ["./prog", "-v"], .Last⟩ =
      (RefinedJob.Builtin "cd" ["cd", "./prog", "-v"] none none none, .Last) :=
  implicit_cd_rule ["./prog"] ⟨"./prog", ["./prog", "-v"], .Last⟩ (by decide)

/-- C8: the here-string stdin binder.  Parts 1-2: a trailing newline is
appended exactly when the string does not already end with one
(mod.rs:112-114).  Part 3: `stdin_of`'s contract — when the pipe and the
write succeed, the returned reader fd carries exactly the given buffer.
Part 4: on success the reader is attached as the first job's stdin and
the materialized bytes are the normalized string.  Part 5: on a
materialization failure the diagnostic is printed and the job list is
left unchanged (the first job proceeds with its default stdin). -/
theorem here_string_stdin :
    (∀ s : String, List.isSuffixOf "\n".data s.data = true →
      hereStringNormalized s = s) ∧
    (∀ s : String, List.isSuffixOf "\n".data s.data = false →
      hereStringNormalized s = s.push '\n') ∧
    (∀ (buf : String) (r w : Nat), stdin_of buf (.ok (r, w)) (.ok ()) = .ok (r, buf)) ∧
    (∀ (s : String) (r w : Nat) (first : RefinedJob × JobKind)
        (rest : List (RefinedJob × JobKind)),
      applyHereString s (.ok (r, w)) (.ok ()) (first :: rest) =
        ((first.1.setStdin r, first.2) :: rest, [], some (r, hereStringNormalized s))) ∧
    (∀ (s er : String) (first : RefinedJob × JobKind)
        (rest : List (RefinedJob × JobKind)),
      applyHereString s (.error er) (.ok ()) (first :: rest) =
        (first :: rest,
         ["ion: failed to redirect herestring '" ++ hereStringNormalized s ++
          "' into stdin: " ++ er],
         none)) := by
  refine ⟨?_, ?_, ?_, ?_, ?_⟩
  · intro s h
    simp [hereStringNormalized, h]
  · intro s h
    simp [hereStringNormalized, h]
  · intro buf r w
    rfl
  · intro s r w first rest
    rfl
  · intro s er first rest
    rfl

/-- Witness for C8: `"ab\n"` is left alone, `"ab"` gets a newline
pushed. -/
theorem here_string_stdin_check :
    hereStringNormalized "ab\n" = "ab\n" ∧
    hereStringNormalized "ab" = "ab".push '\n' :=
  ⟨here_string_stdin.1 "ab\n" (by decide), here_string_stdin.2.1 "ab" (by decide)⟩

/-- C9: structure of `wait` (mod.rs:419-443).  Part 1: the pgid passed
to `watch_foreground` is `children[0]`, the last pid is
`children[children.len()-1]`, and the label is the remembered jobs' long
labels joined with " | ".  Part 2: the `on_exit` callback with a pid
found at (first) index `i` of `children` removes exactly index `i` from
both `children` and the `remember` vector (whose dropped entry owns the
parent-held pipe fds of that stage), leaving every other entry unchanged
(`List.eraseIdx`).  Part 3: a pid not present in `children` leaves both
vectors unchanged. -/
theorem wait_structure :
    (∀ (c0 : Nat) (rest : List Nat) (rem : List RefinedJob) (st : St),
      waitM (c0 :: rest) rem st =
        (Except.ok (st.watches.headD 0),
         { st with
             watches := st.watches.tail
             trace := st.trace ++
              [Event.watchForeground c0 ((c0 :: rest).getLastD 0)
                (String.intercalate " | " (rem.map RefinedJob.long))] })) ∧
    (∀ (ch : List Nat) (rem : List RefinedJob) (pid : Int) (i : Nat),
      List.findIdx? (fun x : Nat => ((x : Int) == pid)) ch = some i → i < rem.length →
      waitOnExit ch rem pid = some (ch.eraseIdx i, rem.eraseIdx i)) ∧
    (∀ (ch : List Nat) (rem : List RefinedJob) (pid : Int),
      List.findIdx? (fun x : Nat => ((x : Int) == pid)) ch = none →
      waitOnExit ch rem pid = some (ch, rem)) := by
  refine ⟨?_, ?_, ?_⟩
  · intro c0 rest rem st
    rcases st with ⟨reg, sp, fk, pp, cl, dp, w, br, tr⟩
    cases w <;> rfl
  · intro ch rem pid i h1 h2
    simp [waitOnExit, h1, h2]
  · intro ch rem pid h1
    simp [waitOnExit, h1]

/-- Witness for C9: pid 11 sits at index 1 of `[10, 11, 12]`, so the
callback drops index 1 from both vectors. -/
theorem wait_structure_check :
    waitOnExit [10, 11, 12]
        [RefinedJob.Builtin "a" ["a"] none none none,
         RefinedJob.Builtin "b" ["b"] none none none,
         RefinedJob.Builtin "c" ["c"] none none none] 11 =
      some ([10, 12],
        [RefinedJob.Builtin "a" ["a"] none none none,
         RefinedJob.Builtin "c" ["c"] none none none]) :=
  wait_structure.2.1 [10, 11, 12]
    [RefinedJob.Builtin "a" ["a"] none none none,
     RefinedJob.Builtin "b" ["b"] none none none,
     RefinedJob.Builtin "c" ["c"] none none none] 11 1 (by decide) (by decide)

end IonPipeExec
